import Mathlib

/-!
Verification development for a small web-search chat orchestrator
(`agent.py`, `llm_service.py`, `app.py`, `server.py`).

The pure response-processing, provider-selection and prompt-composition
logic of the Python sources is embedded shallowly below; machine-level
JSON values are modelled by an inductive `Json` type with rational
numbers for the numeric literals the upstream services return.
-/

/-- JSON values as decoded by the HTTP client's response parsing.
Objects are association lists of key/value pairs (keys unique, as
produced by a JSON parser). -/
inductive Json where
  | null : Json
  | bool (b : Bool) : Json
  | num (q : Rat) : Json
  | str (s : String) : Json
  | arr (xs : List Json) : Json
  | obj (fields : List (String × Json)) : Json

/-- Truthiness of an optional environment-variable string in Python:
`None` and the empty string are falsy, every other string is truthy. -/
def pyTruthy : Option String → Bool
  | none => false
  | some s => !s.isEmpty

/-- The normalized search-result record (`SearchResults` pydantic model in
`agent.py`): title, url, snippet, and an optional relevance score that
defaults to `None`. -/
structure SearchResults where
  title : String
  url : String
  snippet : String
  score : Option Rat := none
deriving DecidableEq, Repr

/-- Python `dict.get(k, d)` on an object's field list: value of the first
field named `k`, or the default `d` when no such key exists. -/
def pyDictGet (fs : List (String × Json)) (k : String) (d : Json) : Json :=
  ((fs.find? (fun p => p.1 == k)).map (fun p => p.2)).getD d

/-- Validation of a pydantic `str` field: only a JSON string is accepted;
any other value makes the item's construction fail. -/
def asPyStr : Json → Option String
  | Json.str s => some s
  | _ => none

/-- Validation of the pydantic `Optional[float]` field `score`: JSON null
becomes `None`, a JSON number is accepted, anything else fails validation.
(The validator's numeric-string coercion is not modelled; no result in
this development carries a string-valued score.) -/
def asPyOptScore : Json → Option (Option Rat)
  | Json.null => some none
  | Json.num q => some (some q)
  | _ => none

/-- One iteration of the result loop in `WebSearchTool.search_brave`
(`agent.py` lines 80-89 and, identically, the fallback at 93-102):
`SearchResults(title=item.get("title",""), url=item.get("url",""),
snippet=item.get("description",""), score=item.get("score", 0.0))`,
with the per-item `try`/`except` turning any validation failure (or a
non-dict item, whose `.get` raises) into a skip, i.e. `none`. -/
def braveResultItem : Json → Option SearchResults
  | Json.obj fs =>
    match asPyStr (pyDictGet fs "title" (Json.str "")),
          asPyStr (pyDictGet fs "url" (Json.str "")),
          asPyStr (pyDictGet fs "description" (Json.str "")),
          asPyOptScore (pyDictGet fs "score" (Json.num 0)) with
    | some t, some u, some sn, some sc => some ⟨t, u, sn, sc⟩
    | _, _, _, _ => none
  | _ => none

/-- One iteration of the result loop in `WebSearchTool.search_searxng`
(`agent.py` lines 153-162): `SearchResults(title=item.get("title",""),
url=item.get("url",""), snippet=item.get("content",""))` — no `score`
argument, so the model's default `None` applies; a malformed item is
skipped by the per-item `try`/`except`. -/
def searxngResultItem : Json → Option SearchResults
  | Json.obj fs =>
    match asPyStr (pyDictGet fs "title" (Json.str "")),
          asPyStr (pyDictGet fs "url" (Json.str "")),
          asPyStr (pyDictGet fs "content" (Json.str "")) with
    | some t, some u, some sn => some ⟨t, u, sn, none⟩
    | _, _, _ => none
  | _ => none

/-- Python membership test `k in j` for a string `k`: key lookup on a
dict, element comparison on a list (a list element equals the string `k`
only when it is that string), substring test on a string, and a
`TypeError` on non-container values. -/
def pyContains (j : Json) (k : String) : Except String Bool :=
  match j with
  | Json.obj fs => Except.ok (fs.any (fun p => p.1 == k))
  | Json.arr xs =>
      Except.ok (xs.any (fun x => match x with
        | Json.str s => s == k
        | _ => false))
  | Json.str s => Except.ok (decide (k.toList <:+: s.toList))
  | _ => Except.error "TypeError: argument is not iterable"

/-- Python subscription `j[k]` with a string key: dict lookup (the key is
known to be present on the code paths that use it), `TypeError` on any
non-dict value. -/
def pySubscript (j : Json) (k : String) : Except String Json :=
  match j with
  | Json.obj fs =>
      match fs.find? (fun p => p.1 == k) with
      | some p => Except.ok p.2
      | none => Except.error "KeyError"
  | _ => Except.error "TypeError: value is not subscriptable by str"

/-- Python `j.get(k, d)`: only dicts have a `.get` method; any other
value raises `AttributeError`. -/
def pyGet (j : Json) (k : String) (d : Json) : Except String Json :=
  match j with
  | Json.obj fs => Except.ok (pyDictGet fs k d)
  | _ => Except.error "AttributeError: value has no attribute get"

/-- Python iteration `for item in j`: a list yields its elements, a
string its characters (as one-character strings), a dict its keys;
other values raise `TypeError`. -/
def pyIterate (j : Json) : Except String (List Json) :=
  match j with
  | Json.arr xs => Except.ok xs
  | Json.str s => Except.ok (s.toList.map (fun c => Json.str (String.mk [c])))
  | Json.obj fs => Except.ok (fs.map (fun p => Json.str p.1))
  | _ => Except.error "TypeError: value is not iterable"

/-- Response-body processing of `WebSearchTool.search_brave` (`agent.py`
lines 76-104): if `"web" in data and "results" in data["web"]`, iterate
`data["web"]["results"]`; otherwise fall back to `data.get("results", [])`;
in both branches each item is normalized by `braveResultItem` and
malformed items are skipped. An error value models an exception escaping
the loop (caught further out and re-raised as `SearchError`). -/
def search_brave_body (data : Json) : Except String (List SearchResults) := do
  let hasWeb ← pyContains data "web"
  let cond ←
    if hasWeb then do
      let w ← pySubscript data "web"
      pyContains w "results"
    else
      pure false
  if cond then do
    let w ← pySubscript data "web"
    let rs ← pySubscript w "results"
    let items ← pyIterate rs
    pure (items.filterMap braveResultItem)
  else do
    let rs ← pyGet data "results" (Json.arr [])
    let items ← pyIterate rs
    pure (items.filterMap braveResultItem)

/-- Response-body processing of `WebSearchTool.search_searxng`
(`agent.py` lines 152-164): iterate `data.get("results", [])`,
normalizing each item with `searxngResultItem` and skipping malformed
ones. -/
def search_searxng_body (data : Json) : Except String (List SearchResults) := do
  let rs ← pyGet data "results" (Json.arr [])
  let items ← pyIterate rs
  pure (items.filterMap searxngResultItem)

/-- Query parameters of the Brave request (`agent.py` line 68):
`params={"q": query, "count": 5}`. -/
def braveParams (query : String) : List (String × String) :=
  [("q", query), ("count", "5")]

/-- Query parameters of the SearXNG request (`agent.py` lines 140-145):
`params={"q": query, "format": "json", "language": "en-US", "num": 5}`. -/
def searxngParams (query : String) : List (String × String) :=
  [("q", query), ("format", "json"), ("language", "en-US"), ("num", "5")]

/-- A Brave response whose nested `web.results` array holds the given
items, the shape handled by the first branch of `search_brave_body`. -/
def braveResponse (items : List Json) : Json :=
  Json.obj [("web", Json.obj [("results", Json.arr items)])]

/-- A SearXNG response with a top-level `results` array. -/
def searxngResponse (items : List Json) : Json :=
  Json.obj [("results", Json.arr items)]

/-- The wait computed by tenacity's `wait_exponential(multiplier, min, max)`
after a failed attempt: `max(max(0, min), min(multiplier * 2 ** attempt_number, max))`,
where `attempt_number` counts the attempt that just failed, starting at 1. -/
def wait_exponential (multiplier minW maxW : Rat) (attemptNumber : Nat) : Rat :=
  max (max 0 minW) (min (multiplier * 2 ^ attemptNumber) maxW)

/-- The backoff configured on both search methods (`agent.py` lines 43-47
and 115-119): `wait_exponential(multiplier=1, min=4, max=10)`. -/
def searchWait (attemptNumber : Nat) : Rat :=
  wait_exponential 1 4 10 attemptNumber

/-- Retry loop of tenacity with `stop_after_attempt` and `reraise=True`:
`attempt k` is the outcome of the k-th call (attempts numbered from 1).
Returns the final outcome together with the number of attempts made; on
exhaustion the last attempt's failure is returned unchanged. -/
def retryCall {ε α : Type} (fuel : Nat) (k : Nat) (attempt : Nat → Except ε α) :
    Except ε α × Nat :=
  match fuel with
  | 0 => (attempt k, k)
  | 1 => (attempt k, k)
  | Nat.succ (Nat.succ m) =>
    match attempt k with
    | Except.ok a => (Except.ok a, k)
    | Except.error _ => retryCall (Nat.succ m) (k + 1) attempt

/-- The retry policy applied to both search methods (`agent.py` lines
43-47 and 115-119): `stop_after_attempt(3)`, `reraise=True`. -/
def searchRetry {ε α : Type} (attempt : Nat → Except ε α) : Except ε α × Nat :=
  retryCall 3 1 attempt

/-- The state a successfully constructed `WebSearchTool` carries
(`agent.py` lines 32-41). -/
structure WebSearchToolState where
  brave_api_key : Option String
  searxng_base_url : Option String
  provider : String
deriving DecidableEq, Repr

/-- Error message raised by `WebSearchTool.__init__` when neither
provider is configured. -/
def noProviderMsg : String :=
  "No search provider configured. Please set either BRAVE_API_KEY or SEARXNG_BASE_URL"

/-- Constructor `WebSearchTool.__init__` (`agent.py` lines 32-41): read both
environment variables, set `provider = "brave" if self.brave_api_key else "searxng"`,
then raise `SearchError` unless at least one of the two variables is
truthy. -/
def WebSearchTool.init (braveApiKey searxngBaseUrl : Option String) :
    Except String WebSearchToolState :=
  let provider := if pyTruthy braveApiKey then "brave" else "searxng"
  if !(pyTruthy braveApiKey || pyTruthy searxngBaseUrl) then
    Except.error noProviderMsg
  else
    Except.ok ⟨braveApiKey, searxngBaseUrl, provider⟩

/-- The three control-flow outcomes of `WebSearchTool.search`
(`agent.py` lines 188-200). -/
inductive SearchDispatch where
  | noProvider : SearchDispatch
  | brave : SearchDispatch
  | searxng : SearchDispatch
deriving DecidableEq, Repr

/-- Dispatch logic of `WebSearchTool.search` (`agent.py` lines 188-200):
`if not self.provider: raise SearchError(...)` (a string is falsy exactly
when empty), then `search_brave` when the provider equals `"brave"`,
else `search_searxng`. -/
def WebSearchTool.searchDispatch (st : WebSearchToolState) : SearchDispatch :=
  if st.provider.isEmpty then SearchDispatch.noProvider
  else if st.provider == "brave" then SearchDispatch.brave
  else SearchDispatch.searxng

/-- The state of a successfully constructed `LLMService`
(`llm_service.py` lines 14-24). -/
structure LLMServiceState where
  provider : String
  model : String
  openai_api_key : String
deriving DecidableEq, Repr

/-- Error message of `LLMService.__init__` for the hosted provider
without credentials. -/
def openaiKeyRequiredMsg : String :=
  "OPENAI_API_KEY is required when using OpenAI provider"

/-- Python `str.lower()` for the ASCII configuration strings this code
compares (full Unicode case mapping is not exercised by any selector
value considered here). -/
def pyLower (s : String) : String :=
  String.mk (s.toList.map Char.toLower)

/-- Constructor `LLMService.__init__` (`llm_service.py` lines 14-24):
`provider = os.getenv('LLM_PROVIDER', 'ollama').lower()`,
`model = os.getenv('LLM_MODEL', 'qwen2.5:7b')`,
`openai_api_key = os.getenv('OPENAI_API_KEY', '')`; construction raises
`ValueError` exactly when the provider equals `"openai"` and the key is
falsy (empty). -/
def LLMService.init (llmProvider llmModel openaiApiKey : Option String) :
    Except String LLMServiceState :=
  let provider := pyLower (llmProvider.getD "ollama")
  let model := llmModel.getD "qwen2.5:7b"
  let key := openaiApiKey.getD ""
  if provider == "openai" && key.isEmpty then
    Except.error openaiKeyRequiredMsg
  else
    Except.ok ⟨provider, model, key⟩

/-- Routing of `LLMService.generate` (`llm_service.py` lines 34-39):
`if self.provider == LLMProvider.OPENAI` use the hosted backend,
`else` use the local ollama backend — any unrecognized provider string
silently falls through to ollama. -/
def LLMService.generateRoute (st : LLMServiceState) : String :=
  if st.provider == "openai" then "openai" else "ollama"

/-- A search-result record as passed to `generate_web_aware_response`
(`llm_service.py` line 85): a plain string mapping with `title`, `url`
and `snippet` keys. -/
structure WebRecord where
  title : String
  url : String
  snippet : String
deriving DecidableEq, Repr

/-- One block of the context built in `generate_web_aware_response`
(`llm_service.py` line 88), for the zero-based enumeration index `i`:
`f"Source {i+1}: {res['title']}\nURL: {res['url']}\nContent: {res['snippet']}"`. -/
def resultBlock (i : Nat) (r : WebRecord) : String :=
  "Source " ++ toString (i + 1) ++ ": " ++ r.title ++
  "\nURL: " ++ r.url ++ "\nContent: " ++ r.snippet

/-- The list of context blocks produced by
`for i, res in enumerate(search_results)` starting at index `i`. -/
def resultBlocks (i : Nat) : List WebRecord → List String
  | [] => []
  | r :: rs => resultBlock i r :: resultBlocks (i + 1) rs

/-- The context string of `generate_web_aware_response` (`llm_service.py`
lines 87-90): the enumerated blocks joined by blank lines. -/
def webContext (rs : List WebRecord) : String :=
  String.intercalate "\n\n" (resultBlocks 0 rs)

/-- The prompt template text preceding the context in
`generate_web_aware_response` (`llm_service.py` lines 92-98). -/
def webPromptPre (query : String) : String :=
  "\n    You are a helpful AI assistant that can answer questions using web search results.\n    \n    User\x27s question: " ++
  query ++
  "\n    \n    Here are some relevant search results:\n    "

/-- The prompt template text following the context in
`generate_web_aware_response` (`llm_service.py` lines 99-105). -/
def webPromptPost : String :=
  "\n    \n    Based on the above information, please provide a clear and concise answer to the user\x27s question.\n    If the search results don\x27t contain enough information to answer the question, please say so.\n    Include relevant source numbers (e.g., [1], [2]) to cite your information.\n    \n    Answer:\n    "

/-- The full prompt of `generate_web_aware_response` (`llm_service.py`
lines 92-105). -/
def webAwarePrompt (query : String) (rs : List WebRecord) : String :=
  webPromptPre query ++ webContext rs ++ webPromptPost

/-- The zero-context prompt of `get_ai_response` (`app.py` line 231):
`f"User: {query}\n\nAssistant:"`. -/
def plainPrompt (query : String) : String :=
  "User: " ++ query ++ "\n\nAssistant:"

/-- Prompt selection of `get_ai_response` (`app.py` lines 226-231):
with a non-empty result list the web-aware prompt is used, otherwise
(`None` or an empty list) the plain prompt. -/
def getAiResponsePrompt (query : String) (searchResults : Option (List WebRecord)) : String :=
  match searchResults with
  | some rs => if rs.length > 0 then webAwarePrompt query rs else plainPrompt query
  | none => plainPrompt query

/-- A well-formed Brave result item used in concrete evaluations. -/
def braveItemWF : Json :=
  Json.obj [("title", Json.str "t"), ("url", Json.str "u"),
            ("description", Json.str "d"), ("score", Json.num 1)]

/-- A Brave item whose `score` key is present and explicitly null. -/
def braveItemScoreNull : Json :=
  Json.obj [("title", Json.str "t"), ("url", Json.str "u"),
            ("description", Json.str "d"), ("score", Json.null)]

/-- A Brave item with no `score` key at all. -/
def braveItemScoreAbsent : Json :=
  Json.obj [("title", Json.str "t"), ("url", Json.str "u"),
            ("description", Json.str "d")]

/-- The number of normalized results equals the number of items the
parser accepts. -/
theorem length_filterMap_eq_countP {α β : Type} (f : α → Option β) (l : List α) :
    (l.filterMap f).length = l.countP (fun a => (f a).isSome) := by
  induction l with
  | nil => rfl
  | cons x xs ih =>
    cases hx : f x <;>
      simp [List.filterMap_cons, hx, List.countP_cons, ih]

/-- Dropping the rejected items first does not change the normalized
output: skipped items leave no trace. -/
theorem filterMap_eq_filterMap_filter {α β : Type} (f : α → Option β) (l : List α) :
    (l.filter (fun a => (f a).isSome)).filterMap f = l.filterMap f := by
  induction l with
  | nil => rfl
  | cons x xs ih =>
    cases hx : f x <;>
      simp [List.filter_cons, List.filterMap_cons, hx, ih]

/-- Removing all fields of one key leaves the first-match lookup for any
other key unchanged. -/
theorem find?_key_filter_ne (fs : List (String × Json)) (k other : String)
    (h : k ≠ other) :
    (fs.filter (fun p => p.1 != other)).find? (fun p => p.1 == k)
      = fs.find? (fun p => p.1 == k) := by
  induction fs with
  | nil => rfl
  | cons p ps ih =>
    by_cases ho : p.1 = other
    · have h1 : (p.1 != other) = false := by simp [bne, ho]
      have h2 : (p.1 == k) = false := by
        simp [ho]
        exact fun hh => h hh.symm
      rw [List.filter_cons, h1]
      simp only [Bool.false_eq_true, if_false]
      rw [List.find?_cons, h2, ih]
    · have h1 : (p.1 != other) = true := by simp [bne_iff_ne, ho]
      by_cases hk : p.1 = k
      · have h2 : (p.1 == k) = true := by simp [hk]
        rw [List.filter_cons, h1]
        simp only [if_true]
        rw [List.find?_cons, List.find?_cons, h2]
      · have h2 : (p.1 == k) = false := by simp [hk]
        rw [List.filter_cons, h1]
        simp only [if_true]
        rw [List.find?_cons, List.find?_cons, h2, ih]

/-- Removing all fields of one key from an object leaves `pyDictGet`
for any other key unchanged. -/
theorem pyDictGet_filter_ne (fs : List (String × Json)) (k other : String) (d : Json)
    (h : k ≠ other) :
    pyDictGet (fs.filter (fun p => p.1 != other)) k d = pyDictGet fs k d := by
  unfold pyDictGet
  rw [find?_key_filter_ne fs k other h]

/-- One block is rendered per supplied record. -/
theorem resultBlocks_length (i : Nat) (rs : List WebRecord) :
    (resultBlocks i rs).length = rs.length := by
  induction rs generalizing i with
  | nil => rfl
  | cons r rs ih => simp [resultBlocks, ih]

/-- The j-th rendered block carries enumeration index `i + j` and the
j-th record, in input order. -/
theorem resultBlocks_get? (i : Nat) (rs : List WebRecord) (j : Nat) (h : j < rs.length) :
    (resultBlocks i rs).get? j = some (resultBlock (i + j) (rs.get ⟨j, h⟩)) := by
  induction rs generalizing i j with
  | nil => simp at h
  | cons r rs ih =>
    cases j with
    | zero => simp [resultBlocks]
    | succ j =>
      have hj : j < rs.length := Nat.lt_of_succ_lt_succ h
      have := ih (i + 1) j hj
      simpa [resultBlocks, List.get?, Nat.add_assoc, Nat.add_comm 1 j] using this

/-- A successfully normalized SearXNG item always has an absent score. -/
theorem searxngResultItem_score_none (it : Json) (r : SearchResults)
    (h : searxngResultItem it = some r) : r.score = none := by
  unfold searxngResultItem at h
  repeat' split at h
  any_goals exact Option.noConfusion h
  cases h
  rfl

/-- The normalized snippet of a SearXNG item is the value of its
`content` field. -/
theorem searxngResultItem_snippet (fs : List (String × Json)) (r : SearchResults)
    (c : String) (h : searxngResultItem (Json.obj fs) = some r)
    (hc : pyDictGet fs "content" (Json.str "") = Json.str c) : r.snippet = c := by
  simp only [searxngResultItem] at h
  rw [hc] at h
  cases h1 : asPyStr (pyDictGet fs "title" (Json.str "")) with
  | none => rw [h1] at h; exact Option.noConfusion h
  | some t =>
    cases h2 : asPyStr (pyDictGet fs "url" (Json.str "")) with
    | none => rw [h1, h2] at h; exact Option.noConfusion h
    | some u =>
      rw [h1, h2] at h
      cases h
      rfl

/-- The score of a successfully normalized Brave item is whatever the
`Optional[float]` validator accepted for `item.get("score", 0.0)`. -/
theorem braveResultItem_score (fs : List (String × Json)) (r : SearchResults)
    (h : braveResultItem (Json.obj fs) = some r) :
    asPyOptScore (pyDictGet fs "score" (Json.num 0)) = some r.score := by
  simp only [braveResultItem] at h
  cases h1 : asPyStr (pyDictGet fs "title" (Json.str "")) with
  | none => rw [h1] at h; exact Option.noConfusion h
  | some t =>
  cases h2 : asPyStr (pyDictGet fs "url" (Json.str "")) with
  | none => rw [h1, h2] at h; exact Option.noConfusion h
  | some u =>
  cases h3 : asPyStr (pyDictGet fs "description" (Json.str "")) with
  | none => rw [h1, h2, h3] at h; exact Option.noConfusion h
  | some sn =>
  cases h4 : asPyOptScore (pyDictGet fs "score" (Json.num 0)) with
  | none => rw [h1, h2, h3, h4] at h; exact Option.noConfusion h
  | some sc =>
    rw [h1, h2, h3, h4] at h
    cases h
    rfl

/-- C1 (amended): both providers only cap the result count through the
request parameter (`count=5` for Brave, `num=5` for SearXNG); the
normalization itself applies no local cap, so a response whose
`web.results` array holds n well-formed items normalizes to exactly n
results. -/
theorem C1_count_request_param_no_local_cap (q : String) (items : List Json)
    (hwf : ∀ it ∈ items, (braveResultItem it).isSome = true) :
    ("count", "5") ∈ braveParams q ∧
    ("num", "5") ∈ searxngParams q ∧
    search_brave_body (braveResponse items) = Except.ok (items.filterMap braveResultItem) ∧
    (items.filterMap braveResultItem).length = items.length := by
  refine ⟨by simp [braveParams], by simp [searxngParams], rfl, ?_⟩
  rw [length_filterMap_eq_countP]
  exact List.countP_eq_length.mpr hwf

/-- Witness for C1: six well-formed upstream items normalize to six
results — more than the five the claim allows. -/
theorem C1_count_request_param_no_local_cap_witness :
    search_brave_body (braveResponse (List.replicate 6 braveItemWF))
      = Except.ok ((List.replicate 6 braveItemWF).filterMap braveResultItem) ∧
    ((List.replicate 6 braveItemWF).filterMap braveResultItem).length
      = (List.replicate 6 braveItemWF).length := by
  have h := C1_count_request_param_no_local_cap "mars" (List.replicate 6 braveItemWF)
    (by decide)
  exact ⟨h.2.2.1, h.2.2.2⟩

/-- Counterexample to C1 as stated: with six well-formed items in
`web.results` the normalized list has six elements, which is neither at
most 5 nor `min 5 6`. -/
theorem C1_counterexample :
    (search_brave_body (braveResponse (List.replicate 6 braveItemWF))).map List.length
      = Except.ok 6 ∧
    (∀ it ∈ List.replicate 6 braveItemWF, (braveResultItem it).isSome = true) ∧
    ¬ (6 ≤ 5) ∧ 6 ≠ min 5 6 := by
  refine ⟨rfl, by decide, by decide, by decide⟩

/-- C2 (amended): in Brave normalization the score defaults to 0.0 when
the `score` key is absent (since `item.get("score", 0.0)` only then
yields the default), it is absent (`None`) when the key is present with
an explicitly null value, and a present numeric score is passed through
unchanged. -/
theorem C2_brave_score_semantics (fs : List (String × Json)) (r : SearchResults)
    (h : braveResultItem (Json.obj fs) = some r) :
    (fs.find? (fun p => p.1 == "score") = none → r.score = some 0) ∧
    (pyDictGet fs "score" (Json.num 0) = Json.null → r.score = none) ∧
    (∀ q : Rat, pyDictGet fs "score" (Json.num 0) = Json.num q → r.score = some q) := by
  have hs := braveResultItem_score fs r h
  refine ⟨?_, ?_, ?_⟩
  · intro hn
    have hd : pyDictGet fs "score" (Json.num 0) = Json.num 0 := by
      unfold pyDictGet
      rw [hn]
      rfl
    rw [hd] at hs
    exact (Option.some.inj hs).symm
  · intro hnull
    rw [hnull] at hs
    exact (Option.some.inj hs).symm
  · intro q hq
    rw [hq] at hs
    exact (Option.some.inj hs).symm

/-- Witness for C2: an item carrying `score: null` normalizes with an
absent score. -/
theorem C2_brave_score_semantics_witness :
    (SearchResults.mk "t" "u" "d" none).score = none :=
  (C2_brave_score_semantics
    [("title", Json.str "t"), ("url", Json.str "u"),
     ("description", Json.str "d"), ("score", Json.null)]
    (SearchResults.mk "t" "u" "d" none) rfl).2.1 rfl

/-- Counterexample to C2 as stated: an explicitly null `score` yields an
absent score (not 0.0), and a missing `score` key yields score 0.0 (the
field is not omitted). -/
theorem C2_counterexample :
    (braveResultItem braveItemScoreNull).map SearchResults.score = some none ∧
    (braveResultItem braveItemScoreAbsent).map SearchResults.score = some (some 0) := by
  exact ⟨rfl, rfl⟩

/-- C7: for both providers, malformed items inside the results array are
skipped without affecting the rest of the call: the body still returns a
list (never an error), that list is unchanged when the malformed items
are dropped beforehand, and its length is exactly the number of
well-formed items; concretely, a mix of one well-formed and two
malformed items yields just the well-formed one. -/
theorem C7_malformed_items_skipped (items : List Json) :
    (search_brave_body (braveResponse items)).isOk = true ∧
    (search_searxng_body (searxngResponse items)).isOk = true ∧
    search_brave_body (braveResponse items)
      = Except.ok ((items.filter (fun it => (braveResultItem it).isSome)).filterMap braveResultItem) ∧
    search_searxng_body (searxngResponse items)
      = Except.ok ((items.filter (fun it => (searxngResultItem it).isSome)).filterMap searxngResultItem) ∧
    (items.filterMap braveResultItem).length
      = items.countP (fun it => (braveResultItem it).isSome) ∧
    search_brave_body (braveResponse
        [braveItemWF, Json.num 3, Json.obj [("title", Json.num 1)]])
      = Except.ok [SearchResults.mk "t" "u" "d" (some 1)] := by
  refine ⟨rfl, rfl, ?_, ?_, length_filterMap_eq_countP _ _, rfl⟩
  · show Except.ok (items.filterMap braveResultItem) = _
    rw [filterMap_eq_filterMap_filter]
  · show Except.ok (items.filterMap searxngResultItem) = _
    rw [filterMap_eq_filterMap_filter]

/-- C9: SearXNG normalization never populates `score` — a successfully
normalized item has an absent score whether or not the upstream item
carried one (removing all `score` fields changes nothing) — and the
upstream `content` field maps to the normalized `snippet`. -/
theorem C9_searxng_score_absent_content_snippet :
    (∀ (it : Json) (r : SearchResults), searxngResultItem it = some r → r.score = none) ∧
    (∀ (items : List Json) (r : SearchResults),
      r ∈ items.filterMap searxngResultItem → r.score = none) ∧
    (∀ fs : List (String × Json), searxngResultItem (Json.obj fs)
      = searxngResultItem (Json.obj (fs.filter (fun p => p.1 != "score")))) ∧
    (∀ (fs : List (String × Json)) (r : SearchResults) (c : String),
      searxngResultItem (Json.obj fs) = some r →
      pyDictGet fs "content" (Json.str "") = Json.str c → r.snippet = c) := by
  refine ⟨searxngResultItem_score_none, ?_, ?_, searxngResultItem_snippet⟩
  · intro items r hr
    rcases List.mem_filterMap.mp hr with ⟨it, _, hit⟩
    exact searxngResultItem_score_none it r hit
  · intro fs
    simp only [searxngResultItem]
    rw [pyDictGet_filter_ne fs "title" "score" (Json.str "") (by decide),
        pyDictGet_filter_ne fs "url" "score" (Json.str "") (by decide),
        pyDictGet_filter_ne fs "content" "score" (Json.str "") (by decide)]

/-- Witness for C9: an upstream SearXNG item that does carry a numeric
`score` still normalizes with an absent score and with its `content`
value as snippet. -/
theorem C9_searxng_score_absent_content_snippet_witness :
    (SearchResults.mk "t" "u" "c" none).score = none ∧
    (SearchResults.mk "t" "u" "c" none).snippet = "c" := by
  have h := C9_searxng_score_absent_content_snippet
  refine ⟨h.1 (Json.obj [("title", Json.str "t"), ("url", Json.str "u"),
      ("content", Json.str "c"), ("score", Json.num 2)])
      (SearchResults.mk "t" "u" "c" none) rfl, ?_⟩
  exact h.2.2.2 [("title", Json.str "t"), ("url", Json.str "u"),
      ("content", Json.str "c"), ("score", Json.num 2)]
      (SearchResults.mk "t" "u" "c" none) "c" rfl rfl

/-- C3: the retry wrapper makes exactly 3 total attempts: if every
attempt fails it returns the third attempt's failure unchanged after 3
attempts; if the first two attempts fail and the third succeeds it
returns that success after 3 attempts; and the configured backoff wait
after the k-th failed attempt is the doubling sequence `2 ^ k` clamped
to at least 4 and at most 10 time-units (so the first wait is 4). -/
theorem C3_retry_three_attempts_reraise {ε α : Type} (attempt : Nat → Except ε α) :
    ((∀ k, (attempt k).isOk = false) → searchRetry attempt = (attempt 3, 3)) ∧
    (∀ a : α, (attempt 1).isOk = false → (attempt 2).isOk = false →
      attempt 3 = Except.ok a → searchRetry attempt = (Except.ok a, 3)) ∧
    searchWait 1 = 4 ∧
    (∀ k : Nat, searchWait k = max 4 (min (2 ^ k) 10)) := by
  have step : searchRetry attempt =
      (match attempt 1 with
       | Except.ok a => (Except.ok a, 1)
       | Except.error _ =>
         match attempt 2 with
         | Except.ok a => (Except.ok a, 2)
         | Except.error _ => (attempt 3, 3)) := rfl
  have hwait : ∀ k : Nat, searchWait k = max 4 (min (2 ^ k) 10) := by
    intro k
    unfold searchWait wait_exponential
    rw [one_mul]
    have h04 : (max 0 4 : Rat) = 4 := by norm_num
    rw [h04]
  refine ⟨?_, ?_, ?_, hwait⟩
  · intro h
    have h1 := h 1
    have h2 := h 2
    cases hx1 : attempt 1 with
    | ok a => rw [hx1] at h1; simp [Except.isOk, Except.toBool] at h1
    | error e1 =>
      cases hx2 : attempt 2 with
      | ok a => rw [hx2] at h2; simp [Except.isOk, Except.toBool] at h2
      | error e2 => rw [step, hx1, hx2]
  · intro a h1 h2 h3
    cases hx1 : attempt 1 with
    | ok b => rw [hx1] at h1; simp [Except.isOk, Except.toBool] at h1
    | error e1 =>
      cases hx2 : attempt 2 with
      | ok b => rw [hx2] at h2; simp [Except.isOk, Except.toBool] at h2
      | error e2 => rw [step, hx1, hx2, h3]
  · rw [hwait 1]
    norm_num

/-- Witness for C3: a transport that always fails is re-raised unchanged
after 3 attempts; one that fails twice then succeeds returns the success
after 3 attempts; the two waits actually performed are 4 and 4. -/
theorem C3_retry_three_attempts_reraise_witness :
    searchRetry (fun _ => (Except.error "boom" : Except String Nat))
      = (Except.error "boom", 3) ∧
    searchRetry (fun k => if k = 3 then Except.ok 7 else (Except.error "boom" : Except String Nat))
      = (Except.ok 7, 3) ∧
    searchWait 1 = 4 ∧ searchWait 2 = 4 := by
  refine ⟨?_, ?_, ?_, ?_⟩
  · exact (C3_retry_three_attempts_reraise (fun _ => (Except.error "boom" : Except String Nat))).1
      (fun _ => rfl)
  · exact (C3_retry_three_attempts_reraise
      (fun k => if k = 3 then Except.ok 7 else (Except.error "boom" : Except String Nat))).2.1
      7 rfl rfl rfl
  · exact (C3_retry_three_attempts_reraise (fun _ => (Except.error "x" : Except String Nat))).2.2.1
  · rw [(C3_retry_three_attempts_reraise
      (fun _ => (Except.error "x" : Except String Nat))).2.2.2 2]
    norm_num

/-- C4: the context block of the web-aware prompt renders exactly one
block per supplied result, `Source {i+1}: {title}` then `URL: {url}`
then `Content: {snippet}`, joined by blank lines, with indices starting
at 1 and following input order exactly. -/
theorem C4_context_blocks_in_order (q : String) (rs : List WebRecord) :
    webAwarePrompt q rs = webPromptPre q ++ webContext rs ++ webPromptPost ∧
    webContext rs = String.intercalate "\n\n" (resultBlocks 0 rs) ∧
    (resultBlocks 0 rs).length = rs.length ∧
    (∀ (i : Nat) (h : i < rs.length),
      (resultBlocks 0 rs).get? i =
        some ("Source " ++ toString (i + 1) ++ ": " ++ (rs.get ⟨i, h⟩).title ++
          "\nURL: " ++ (rs.get ⟨i, h⟩).url ++ "\nContent: " ++ (rs.get ⟨i, h⟩).snippet)) := by
  refine ⟨rfl, rfl, resultBlocks_length 0 rs, ?_⟩
  intro i h
  have hb := resultBlocks_get? 0 rs i h
  simpa [resultBlock] using hb

/-- Witness for C4: two supplied results render as `Source 1` and
`Source 2` blocks in input order. -/
theorem C4_context_blocks_in_order_witness :
    (resultBlocks 0 [WebRecord.mk "A" "ua" "sa", WebRecord.mk "B" "ub" "sb"]).get? 0
      = some "Source 1: A\nURL: ua\nContent: sa" ∧
    (resultBlocks 0 [WebRecord.mk "A" "ua" "sa", WebRecord.mk "B" "ub" "sb"]).get? 1
      = some "Source 2: B\nURL: ub\nContent: sb" := by
  constructor
  · exact (C4_context_blocks_in_order "What is X?"
      [WebRecord.mk "A" "ua" "sa", WebRecord.mk "B" "ub" "sb"]).2.2.2 0 (by decide)
  · exact (C4_context_blocks_in_order "What is X?"
      [WebRecord.mk "A" "ua" "sa", WebRecord.mk "B" "ub" "sb"]).2.2.2 1 (by decide)

/-- C5: provider selection precedence in `WebSearchTool.__init__` — a
truthy `BRAVE_API_KEY` selects Brave even when SearXNG is also
configured; otherwise a truthy `SEARXNG_BASE_URL` selects SearXNG;
with neither, construction fails with the configuration error. -/
theorem C5_provider_precedence (brave searx : Option String) :
    (pyTruthy brave = true →
      WebSearchTool.init brave searx = Except.ok ⟨brave, searx, "brave"⟩) ∧
    (pyTruthy brave = false → pyTruthy searx = true →
      WebSearchTool.init brave searx = Except.ok ⟨brave, searx, "searxng"⟩) ∧
    (pyTruthy brave = false → pyTruthy searx = false →
      WebSearchTool.init brave searx = Except.error noProviderMsg) := by
  refine ⟨?_, ?_, ?_⟩
  · intro h1
    simp [WebSearchTool.init, h1]
  · intro h1 h2
    simp [WebSearchTool.init, h1, h2]
  · intro h1 h2
    simp [WebSearchTool.init, h1, h2]

/-- Witness for C5: with both variables configured Brave wins; with only
the SearXNG URL, SearXNG is selected; with neither, construction fails. -/
theorem C5_provider_precedence_witness :
    WebSearchTool.init (some "k") (some "http://sx")
      = Except.ok ⟨some "k", some "http://sx", "brave"⟩ ∧
    WebSearchTool.init none (some "http://sx")
      = Except.ok ⟨none, some "http://sx", "searxng"⟩ ∧
    WebSearchTool.init none none = Except.error noProviderMsg := by
  refine ⟨(C5_provider_precedence (some "k") (some "http://sx")).1 rfl,
    (C5_provider_precedence none (some "http://sx")).2.1 rfl rfl,
    (C5_provider_precedence none none).2.2 rfl rfl⟩

/-- C6 (amended): generation-provider selection validates nothing but
the hosted-variant credential: construction fails exactly when the
lowercased selector (defaulting to "ollama") equals "openai" while the
API key is empty or missing; any other selector value — valid or not —
constructs successfully and routes generation to the local ollama
backend. -/
theorem C6_generation_selector_no_validation (sel model key : Option String) :
    (LLMService.init sel model key).isOk
      = !((pyLower (sel.getD "ollama") == "openai") && (key.getD "").isEmpty) ∧
    (LLMService.init sel model key).map LLMService.generateRoute
      = (if (pyLower (sel.getD "ollama") == "openai") = true then
           (if (key.getD "").isEmpty = true then Except.error openaiKeyRequiredMsg
            else Except.ok "openai")
         else Except.ok "ollama") := by
  by_cases h1 : (pyLower (sel.getD "ollama") == "openai") = true
  · by_cases h2 : ((key.getD "").isEmpty) = true
    · refine ⟨?_, ?_⟩ <;>
        simp [LLMService.init, h1, h2, Except.isOk, Except.toBool, Except.map]
    · refine ⟨?_, ?_⟩ <;>
        simp [LLMService.init, LLMService.generateRoute, h1, h2, Except.isOk,
          Except.toBool, Except.map]
  · refine ⟨?_, ?_⟩ <;>
      simp [LLMService.init, LLMService.generateRoute, h1, Except.isOk,
        Except.toBool, Except.map]

/-- Counterexample to C6 as stated: with the invalid selector value
`banana` (and no credentials at all), `LLMService` construction
succeeds — there is no hard configuration error — and generation
silently routes to the local ollama variant. -/
theorem C6_counterexample :
    (LLMService.init (some "banana") none none).isOk = true ∧
    (LLMService.init (some "banana") none none).map LLMService.generateRoute
      = Except.ok "ollama" ∧
    LLMService.init (some "openai") none none = Except.error openaiKeyRequiredMsg := by
  exact ⟨rfl, rfl, rfl⟩

/-- C8 (amended): the zero-context prompt is the fixed template
`User: {query}` + blank line + `Assistant:`, whose template text
contributes no `Source` token and no citation brackets; hence for any
query that itself contains no capital `S` and no bracket characters,
the plain prompt contains no `Source` substring and no brackets. -/
theorem C8_plain_prompt_token_free (q : String)
    (hS : 'S' ∉ q.toList) (hlb : '[' ∉ q.toList) (hrb : ']' ∉ q.toList) :
    getAiResponsePrompt q none = "User: " ++ q ++ "\n\nAssistant:" ∧
    ¬ ("Source".toList <:+: (plainPrompt q).toList) ∧
    '[' ∉ (plainPrompt q).toList ∧
    ']' ∉ (plainPrompt q).toList := by
  have hsplit : (plainPrompt q).toList
      = "User: ".toList ++ (q.toList ++ "\n\nAssistant:".toList) := by
    simp [plainPrompt]
  refine ⟨rfl, ?_, ?_, ?_⟩
  · intro hinf
    have hmem : 'S' ∈ (plainPrompt q).toList := hinf.subset (by decide)
    rw [hsplit] at hmem
    rcases List.mem_append.mp hmem with hmem | hmem
    · exact absurd hmem (by decide)
    · rcases List.mem_append.mp hmem with hmem | hmem
      · exact hS hmem
      · exact absurd hmem (by decide)
  · intro hmem
    rw [hsplit] at hmem
    rcases List.mem_append.mp hmem with hmem | hmem
    · exact absurd hmem (by decide)
    · rcases List.mem_append.mp hmem with hmem | hmem
      · exact hlb hmem
      · exact absurd hmem (by decide)
  · intro hmem
    rw [hsplit] at hmem
    rcases List.mem_append.mp hmem with hmem | hmem
    · exact absurd hmem (by decide)
    · rcases List.mem_append.mp hmem with hmem | hmem
      · exact hrb hmem
      · exact absurd hmem (by decide)

/-- Witness for C8: for the token-free query `hello`, the plain prompt
has no `Source` substring and no brackets. -/
theorem C8_plain_prompt_token_free_witness :
    ¬ ("Source".toList <:+: (plainPrompt "hello").toList) ∧
    '[' ∉ (plainPrompt "hello").toList ∧
    ']' ∉ (plainPrompt "hello").toList :=
  (C8_plain_prompt_token_free "hello" (by decide) (by decide) (by decide)).2

/-- Counterexample to C8 as stated: the raw query is embedded verbatim,
so a query containing `Source [1]` puts both a `Source` token and
citation brackets into the plain prompt. -/
theorem C8_counterexample :
    ("Source".toList <:+: (plainPrompt "Source [1]").toList) ∧
    '[' ∈ (plainPrompt "Source [1]").toList ∧
    getAiResponsePrompt "Source [1]" none = plainPrompt "Source [1]" := by
  refine ⟨by decide, by decide, rfl⟩

/-- A successfully constructed tool state records the two environment
values and the provider chosen by the precedence rule. -/
theorem WebSearchTool_init_ok_state (brave searx : Option String)
    (st : WebSearchToolState) (h : WebSearchTool.init brave searx = Except.ok st) :
    st = ⟨brave, searx, if pyTruthy brave = true then "brave" else "searxng"⟩ := by
  simp only [WebSearchTool.init] at h
  split at h
  · exact Except.noConfusion h
  · exact (Except.ok.inj h).symm

/-- C10: whenever `WebSearchTool` construction succeeds, the stored
provider is exactly `"brave"` or `"searxng"`; consequently the
`No search provider configured` branch of `WebSearchTool.search` is
unreachable and every call dispatches to exactly one of the two
provider methods. -/
theorem C10_provider_always_valid (brave searx : Option String)
    (st : WebSearchToolState) (h : WebSearchTool.init brave searx = Except.ok st) :
    (st.provider = "brave" ∨ st.provider = "searxng") ∧
    WebSearchTool.searchDispatch st ≠ SearchDispatch.noProvider ∧
    (WebSearchTool.searchDispatch st = SearchDispatch.brave ↔ st.provider = "brave") ∧
    (WebSearchTool.searchDispatch st = SearchDispatch.searxng ↔ st.provider = "searxng") := by
  have hst := WebSearchTool_init_ok_state brave searx st h
  by_cases hb : pyTruthy brave = true
  · rw [if_pos hb] at hst
    subst hst
    refine ⟨Or.inl rfl, ?_, ?_, ?_⟩
    · exact (show SearchDispatch.brave ≠ SearchDispatch.noProvider by decide)
    · exact (show SearchDispatch.brave = SearchDispatch.brave
        ↔ ("brave" : String) = "brave" by simp)
    · exact (show SearchDispatch.brave = SearchDispatch.searxng
        ↔ ("brave" : String) = "searxng" by simp)
  · rw [if_neg hb] at hst
    subst hst
    refine ⟨Or.inr rfl, ?_, ?_, ?_⟩
    · exact (show SearchDispatch.searxng ≠ SearchDispatch.noProvider by decide)
    · exact (show SearchDispatch.searxng = SearchDispatch.brave
        ↔ ("searxng" : String) = "brave" by simp)
    · exact (show SearchDispatch.searxng = SearchDispatch.searxng
        ↔ ("searxng" : String) = "searxng" by simp)

/-- Witness for C10: the tool constructed with only a Brave key
dispatches to the Brave method, not to the unreachable error branch. -/
theorem C10_provider_always_valid_witness :
    WebSearchTool.searchDispatch ⟨some "k", none, "brave"⟩ ≠ SearchDispatch.noProvider ∧
    WebSearchTool.searchDispatch ⟨some "k", none, "brave"⟩ = SearchDispatch.brave :=
  ⟨(C10_provider_always_valid (some "k") none ⟨some "k", none, "brave"⟩ rfl).2.1,
   (C10_provider_always_valid (some "k") none ⟨some "k", none, "brave"⟩ rfl).2.2.1.mpr rfl⟩
